import Mathlib

/-!
Shallow embedding of the EAS backend core (campus access control and
attendance verification) from the Django source under apps/. Integer ids
model database primary keys; datetimes are modelled as integer minutes.
Python truthiness is made explicit: an integer field is truthy when it is
present and nonzero, while a date or datetime object is truthy exactly when
it is present.
-/

namespace EAS

/-- Truthiness of an optional integer field in Python: None and 0 are falsy. -/
def truthyInt : Option Int → Bool
  | none => false
  | some n => n != 0

/-- Truthiness of an optional natural-number field in Python: None and 0 are falsy. -/
def truthyNat : Option Nat → Bool
  | none => false
  | some n => n != 0

/-- Roles of apps/accounts/models.py User.ROLE_CHOICES. -/
inductive Role
  | student
  | organizer
  | campus_admin
  | super_admin
deriving DecidableEq, Repr

/-- Campus row (apps/campus/models.py), restricted to the fields the core logic reads. -/
structure Campus where
  id : Int
  is_active : Bool
deriving DecidableEq, Repr

/-- CampusConfiguration row (apps/campus/models.py), fields used by the claims. -/
structure CampusConfiguration where
  campus_id : Int
  qr_code_expiry_hours : Nat
  attendance_window_minutes : Nat
  gps_validation_enabled : Bool
  gps_radius_meters : Nat
deriving DecidableEq, Repr

/-- User row (apps/accounts/models.py), fields used by the access-control logic. -/
structure User where
  id : Int
  campus_id : Int
  role : Role
  accessible_campus_ids : List Int
deriving DecidableEq, Repr

/-- Attendance status choices (apps/attendance/models.py). -/
inductive AttStatus
  | present
  | absent
  | late
  | excused
deriving DecidableEq, Repr

/-- Event row (apps/events/models.py), fields used by the verification logic.
The date is in days, times are minutes within the day, and the attendance
window bounds are absolute minutes (date times 1440 plus time of day). -/
structure Event where
  id : Int
  campus_id : Int
  date : Option Int
  start_time : Option Int
  end_time : Option Int
  is_multi_campus : Bool
  allowed_campuses : List Int
  max_participants : Option Nat
  qr_code : Option String
  qr_code_data : String
  attendance_window_start : Option Int
  attendance_window_end : Option Int
deriving DecidableEq, Repr

/-- Attendance row (apps/attendance/models.py), fields used by the claims.
marked_at is an absolute datetime in minutes; arrival_time a time of day. -/
structure Attendance where
  event_id : Int
  user_id : Int
  campus_id : Option Int
  status : AttStatus
  cross_campus_attendance : Bool
  marked_at : Int
  arrival_time : Option Int
deriving DecidableEq, Repr

/-- User.get_accessible_campus_ids (apps/accounts/models.py lines 167-176).
The database of campuses is passed explicitly; the super_admin branch reads
the active campuses fresh from it. -/
def User.get_accessible_campus_ids (db : List Campus) (u : User) : List Int :=
  if u.role = .super_admin then
    (db.filter (fun c => c.is_active)).map (fun c => c.id)
  else if u.role = .campus_admin ∧ u.accessible_campus_ids ≠ [] then
    u.accessible_campus_ids
  else
    [u.campus_id]

/-- User.can_access_campus (apps/accounts/models.py lines 178-180). -/
def User.can_access_campus (db : List Campus) (u : User) (campus_id : Int) : Bool :=
  (u.get_accessible_campus_ids db).contains campus_id

/-- The X-Campus-ID header of CampusContextMiddleware.process_request: absent
covers a missing or empty (falsy) header, unparseable a string on which the
int conversion raises ValueError, and value a header that parses to n. -/
inductive CampusHeader
  | absent
  | unparseable
  | value (n : Int)
deriving DecidableEq, Repr

/-- CampusContextMiddleware.process_request (apps/shared/middleware.py lines
14-45), restricted to an authenticated user: returns the id of the campus
left on the request. The override lookup mirrors
Campus.objects.get(id=int(header), id__in=accessible_ids): it succeeds only
when a campus row with that id exists and the id is in the accessible list;
DoesNotExist and ValueError are swallowed, keeping the original campus. -/
def process_request (db : List Campus) (u : User) (h : CampusHeader) : Int :=
  let campus := u.campus_id
  match h with
  | .absent => campus
  | .unparseable => campus
  | .value n =>
    if u.role = .campus_admin ∨ u.role = .super_admin then
      match db.find? (fun c => c.id == n && (u.get_accessible_campus_ids db).contains c.id) with
      | some c => c.id
      | none => campus
    else campus

/-- Event.can_mark_attendance (apps/events/models.py lines 270-277): false when
either window bound is absent, else inclusive on both ends. -/
def Event.can_mark_attendance (e : Event) (now : Int) : Bool :=
  match e.attendance_window_start, e.attendance_window_end with
  | some ws, some we => ws ≤ now && now ≤ we
  | _, _ => false

/-- Event.attendance_count (apps/events/models.py lines 279-282): count of
attendance records of this event with status present. -/
def Event.attendance_count (e : Event) (recs : List Attendance) : Nat :=
  (recs.filter (fun r => r.event_id == e.id && r.status == .present)).length

/-- The existence check self.attendance_records.filter(user=user).exists() of
Event.can_user_attend (apps/events/models.py line 312). -/
def hasAttendance (e : Event) (u : User) (recs : List Attendance) : Bool :=
  recs.any (fun r => r.event_id == e.id && r.user_id == u.id)

/-- Event.can_user_attend (apps/events/models.py lines 298-319): the gates in
source order (campus access, capacity, duplicate, attendance window), each
returning the source message of its failure. The capacity guard keeps the
Python truthiness of max_participants. -/
def Event.can_user_attend (e : Event) (u : User) (recs : List Attendance) (now : Int) :
    Bool × String :=
  if !e.is_multi_campus && u.campus_id != e.campus_id then
    (false, "Event not available for your campus")
  else if e.is_multi_campus && !(e.allowed_campuses.contains u.campus_id) then
    (false, "Event not available for your campus")
  else if truthyNat e.max_participants && e.max_participants.getD 0 ≤ e.attendance_count recs then
    (false, "Event is at capacity")
  else if hasAttendance e u recs then
    (false, "Already marked attendance for this event")
  else if !e.can_mark_attendance now then
    (false, "Attendance window is closed")
  else
    (true, "Can attend")

/-- Payload string of Event.generate_qr_code (apps/events/models.py line 223). -/
def qr_data_for (id : Int) : String :=
  "https://easuniversity.site/attend/" ++ toString id

/-- Event.generate_qr_code (apps/events/models.py lines 217-254), restricted to
its effect on the event row: sets qr_code_data to the deterministic payload
and stores the rendered image file named after the event id. The guard on a
falsy id is dead code for the UUID primary key, which is always set. -/
def Event.generate_qr_code (e : Event) : Event :=
  { e with
    qr_code_data := qr_data_for e.id,
    qr_code := some ("qr_event_" ++ toString e.id ++ ".png") }

/-- Event.save (apps/events/models.py lines 203-215): when the attendance
window start is unset and date and start_time are present, sets the window to
the fixed interval of 30 minutes before and after the combined event start
datetime; then generates the QR code when none is stored yet. -/
def Event.save (e : Event) : Event :=
  let e1 :=
    if e.attendance_window_start = none ∧ e.date.isSome ∧ e.start_time.isSome then
      let event_datetime := e.date.getD 0 * 1440 + e.start_time.getD 0
      { e with
        attendance_window_start := some (event_datetime - 30),
        attendance_window_end := some (event_datetime + 30) }
    else e
  if e1.qr_code = none then e1.generate_qr_code else e1

/-- Attendance.save (apps/attendance/models.py lines 168-179): auto-populates
the campus from the event when the stored campus id is falsy, recomputes the
cross-campus flag from the related user and event on every save, and derives
arrival_time from marked_at when unset (marked_at, a datetime with a default,
is always truthy). -/
def Attendance.save (ev : Event) (u : User) (a : Attendance) : Attendance :=
  let a1 := if !truthyInt a.campus_id then { a with campus_id := some ev.campus_id } else a
  let a2 := { a1 with cross_campus_attendance := u.campus_id != ev.campus_id }
  if a2.arrival_time = none then { a2 with arrival_time := some (a2.marked_at % 1440) } else a2

/-- Row of a campus-scoped table, as seen by CampusAwareQuerySet. -/
structure Row where
  id : Int
  campus_id : Int
deriving DecidableEq, Repr

/-- CampusAwareQuerySet.accessible_to_user (apps/campus/managers.py lines
23-35), with the queryset as a list of rows. The guards keep the Python
truthiness of the campus_id argument (None and 0 are falsy). -/
def accessible_to_user (db : List Campus) (rows : List Row) (u : User)
    (campus_id : Option Int) : List Row :=
  if u.role = .super_admin then
    if truthyInt campus_id then
      rows.filter (fun r => r.campus_id == campus_id.getD 0)
    else rows
  else
    let accessible_campuses := u.get_accessible_campus_ids db
    if truthyInt campus_id ∧ accessible_campuses.contains (campus_id.getD 0) then
      rows.filter (fun r => r.campus_id == campus_id.getD 0)
    else
      rows.filter (fun r => r.campus_id == u.campus_id)

/-- Spec-side window formula, written from the words of the spec for
comparison with Event.save: the computed attendance window is
[start - delta, end + delta] with delta drawn from the owning campus
configuration attendance_window_minutes. -/
def specAttendanceWindow (cfg : CampusConfiguration) (e : Event) : Option (Int × Int) :=
  match e.date, e.start_time, e.end_time with
  | some d, some s, some en =>
      some (d * 1440 + s - (cfg.attendance_window_minutes : Int),
            d * 1440 + en + (cfg.attendance_window_minutes : Int))
  | _, _, _ => none

/-- Modelled from the spec: the HTTP submission endpoint (submitAttendance) is
not under src; this wrapper orchestrates the in-source gates
(Event.can_user_attend) and the in-source persistence (Attendance.save) over
an explicit list of attendance rows, which stands for the table carrying the
unique constraint on (event, user). On success it inserts one saved record
for (event.id, user.id); on failure it leaves the store unchanged and
reports the failing gate message. -/
def submitAttendance (e : Event) (u : User) (recs : List Attendance) (now : Int) :
    List Attendance × Bool × String :=
  if (e.can_user_attend u recs now).1 then
    (Attendance.save e u
      { event_id := e.id, user_id := u.id, campus_id := none, status := .present,
        cross_campus_attendance := false, marked_at := now, arrival_time := none } :: recs,
      true, (e.can_user_attend u recs now).2)
  else (recs, false, (e.can_user_attend u recs now).2)

/-- The storage-level unique constraint of Attendance.Meta
(unique_together on event and user): no two rows share an (event, user) pair. -/
def uniquePairs : List Attendance → Bool
  | [] => true
  | r :: rs =>
      !rs.any (fun s => s.event_id == r.event_id && s.user_id == r.user_id) && uniquePairs rs

/-- The campus a query is scoped to by accessible_to_user for a user that is
not super_admin: the requested campus when it is truthy and accessible,
otherwise the home campus. Stated for the amended scoping claim. -/
def scopeTarget (db : List Campus) (u : User) (campus_id : Option Int) : Int :=
  if truthyInt campus_id ∧ (u.get_accessible_campus_ids db).contains (campus_id.getD 0) then
    campus_id.getD 0
  else u.campus_id

/-! Concrete sample rows used by counterexamples and witnesses. -/

/-- Event of the C1 counterexample: capacity 1, open window, single campus 1. -/
def eC1 : Event :=
  { id := 1, campus_id := 1, date := some 0, start_time := some 600, end_time := some 700,
    is_multi_campus := false, allowed_campuses := [], max_participants := some 1,
    qr_code := some "q", qr_code_data := "",
    attendance_window_start := some 570, attendance_window_end := some 630 }

/-- Student of campus 1 used by the C1 counterexample. -/
def uC1 : User := { id := 9, campus_id := 1, role := .student, accessible_campus_ids := [] }

/-- Existing present record of (event 1, user 9). -/
def rC1 : Attendance :=
  { event_id := 1, user_id := 9, campus_id := some 1, status := .present,
    cross_campus_attendance := false, marked_at := 600, arrival_time := some 600 }

/-- Event without a participant limit, open window, campus 1, for the C1 witness. -/
def eW1 : Event :=
  { id := 20, campus_id := 1, date := some 0, start_time := some 600, end_time := some 700,
    is_multi_campus := false, allowed_campuses := [], max_participants := none,
    qr_code := some "q", qr_code_data := "",
    attendance_window_start := some 570, attendance_window_end := some 630 }

/-- Existing present record of (event 20, user 9). -/
def rW1 : Attendance :=
  { event_id := 20, user_id := 9, campus_id := some 1, status := .present,
    cross_campus_attendance := false, marked_at := 600, arrival_time := some 600 }

/-- Event with participant limit 5, open window, campus 1, for the C1 witness. -/
def eW1b : Event :=
  { id := 21, campus_id := 1, date := some 0, start_time := some 600, end_time := some 700,
    is_multi_campus := false, allowed_campuses := [], max_participants := some 5,
    qr_code := some "q", qr_code_data := "",
    attendance_window_start := some 570, attendance_window_end := some 630 }

/-- Existing present record of (event 21, user 9). -/
def rW1b : Attendance :=
  { event_id := 21, user_id := 9, campus_id := some 1, status := .present,
    cross_campus_attendance := false, marked_at := 600, arrival_time := some 600 }

/-- Campus configuration with a 60 minute window setting, for the C2 counterexample. -/
def cfgC2 : CampusConfiguration :=
  { campus_id := 1, qr_code_expiry_hours := 24, attendance_window_minutes := 60,
    gps_validation_enabled := true, gps_radius_meters := 100 }

/-- Fresh event (no preset window) starting at minute 600 and ending at 720. -/
def eC2 : Event :=
  { id := 3, campus_id := 1, date := some 0, start_time := some 600, end_time := some 720,
    is_multi_campus := false, allowed_campuses := [], max_participants := none,
    qr_code := some "q", qr_code_data := "",
    attendance_window_start := none, attendance_window_end := none }

/-- Database of campuses 1, 2, 3 (campus 4 does not exist), for C3. -/
def dbC3 : List Campus := [⟨1, true⟩, ⟨2, true⟩, ⟨3, true⟩]

/-- Campus admin of campus 1 whose explicit accessible list names the
nonexistent campus 4, for C3. -/
def uC3 : User := { id := 4, campus_id := 1, role := .campus_admin, accessible_campus_ids := [2, 3, 4] }

/-- Event with multi_campus false and campus 2, for the C4 witness. -/
def eW4 : Event :=
  { id := 5, campus_id := 2, date := some 0, start_time := some 600, end_time := some 700,
    is_multi_campus := false, allowed_campuses := [], max_participants := none,
    qr_code := some "q", qr_code_data := "",
    attendance_window_start := some 570, attendance_window_end := some 630 }

/-- Student of campus 1, used by the C4 witness against the campus 2 event. -/
def uW4 : User := { id := 6, campus_id := 1, role := .student, accessible_campus_ids := [] }

/-- Event with max_participants 0 and an open window, for the C7 counterexample. -/
def eC7 : Event :=
  { id := 7, campus_id := 1, date := some 0, start_time := some 600, end_time := some 700,
    is_multi_campus := false, allowed_campuses := [], max_participants := some 0,
    qr_code := some "q", qr_code_data := "",
    attendance_window_start := some 570, attendance_window_end := some 630 }

/-- Event with capacity 1, for the C7 witness. -/
def eW7 : Event :=
  { id := 8, campus_id := 1, date := some 0, start_time := some 600, end_time := some 700,
    is_multi_campus := false, allowed_campuses := [], max_participants := some 1,
    qr_code := some "q", qr_code_data := "",
    attendance_window_start := some 570, attendance_window_end := some 630 }

/-- Student of campus 1 used by the C7 claims. -/
def uC7 : User := { id := 10, campus_id := 1, role := .student, accessible_campus_ids := [] }

/-- Present record of another user (id 11) on event 8, filling its capacity of 1. -/
def rW7 : Attendance :=
  { event_id := 8, user_id := 11, campus_id := some 1, status := .present,
    cross_campus_attendance := false, marked_at := 600, arrival_time := some 600 }

/-- Fresh event without a stored QR code, for the C8 witness. -/
def eW8 : Event :=
  { id := 12, campus_id := 1, date := some 0, start_time := some 600, end_time := some 700,
    is_multi_campus := false, allowed_campuses := [], max_participants := none,
    qr_code := none, qr_code_data := "",
    attendance_window_start := none, attendance_window_end := none }

/-- Campus admin of campus 1 whose explicit accessible list contains 0, for C10. -/
def uC10 : User := { id := 8, campus_id := 1, role := .campus_admin, accessible_campus_ids := [0, 2] }

/-- Campus admin of campus 1 with accessible campuses 1 and 2, for the C10 witness. -/
def uW10 : User := { id := 13, campus_id := 1, role := .campus_admin, accessible_campus_ids := [1, 2] }

/-! Theorems. -/

/-- C5: for every actor whose role is neither campus_admin nor super_admin,
the resolved accessible-campus set is exactly the singleton of the home
campus, regardless of the campus database and of the contents of the
explicit accessible_campus_ids field. -/
theorem resolve_other_roles (db : List Campus) (u : User)
    (h1 : u.role ≠ .campus_admin) (h2 : u.role ≠ .super_admin) :
    u.get_accessible_campus_ids db = [u.campus_id] := by
  unfold User.get_accessible_campus_ids
  rw [if_neg h2, if_neg]
  exact fun hc => h1 hc.1

/-- Witness for C5: a student of campus 5 with a nonempty explicit list still
resolves to the singleton of campus 5. -/
theorem resolve_other_roles_witness :
    User.get_accessible_campus_ids [⟨2, true⟩, ⟨3, true⟩] ⟨7, 5, .student, [2, 3]⟩ = [5] :=
  resolve_other_roles [⟨2, true⟩, ⟨3, true⟩] ⟨7, 5, .student, [2, 3]⟩
    (by decide) (by decide)

/-- C6: the time-window check succeeds exactly when both bounds are present
and window_start is at most now and now is at most window_end, inclusive on
both ends; in particular an absent bound makes it fail. -/
theorem can_mark_attendance_iff (e : Event) (now : Int) :
    e.can_mark_attendance now = true ↔
      ∃ ws we, e.attendance_window_start = some ws ∧ e.attendance_window_end = some we ∧
        ws ≤ now ∧ now ≤ we := by
  unfold Event.can_mark_attendance
  cases hs : e.attendance_window_start <;> cases he : e.attendance_window_end <;> simp

/-- C9: every save of an attendance row recomputes the cross-campus flag from
the related user and event, so afterwards the stored flag holds exactly when
the actor home campus differs from the event campus, whatever the caller
stored in the row. -/
theorem cross_campus_recomputed (ev : Event) (u : User) (a : Attendance) :
    (Attendance.save ev u a).cross_campus_attendance = true ↔ u.campus_id ≠ ev.campus_id := by
  unfold Attendance.save
  dsimp only
  split <;> split <;> simp

/-- C4: the tenant-eligibility gate of can_user_attend fails exactly when the
actor home campus misses the event campus (single-campus case) or the
allow-list (multi-campus case); and an actor whose home campus differs from a
single-campus event campus always receives the campus-eligibility message,
never another kind. -/
theorem tenant_eligibility (e : Event) (u : User) (recs : List Attendance) (now : Int) :
    (e.can_user_attend u recs now = (false, "Event not available for your campus") ↔
      ¬ (if e.is_multi_campus then u.campus_id ∈ e.allowed_campuses
         else u.campus_id = e.campus_id)) ∧
    (e.is_multi_campus = false → u.campus_id ≠ e.campus_id →
      e.can_user_attend u recs now = (false, "Event not available for your campus")) := by
  constructor
  · unfold Event.can_user_attend
    cases hm : e.is_multi_campus <;> split_ifs <;> simp_all
  · intro hm hne
    unfold Event.can_user_attend
    rw [if_pos]
    simp [hm, hne]

/-- Witness for C4: the student of campus 1 is rejected from the
single-campus event of campus 2 with the campus-eligibility message. -/
theorem tenant_eligibility_witness :
    Event.can_user_attend eW4 uW4 [] 0 = (false, "Event not available for your campus") :=
  (tenant_eligibility eW4 uW4 [] 0).2 (by decide) (by decide)

/-- Helper: when can_user_attend reports success, the duplicate gate was
passed, so no record of this (event, user) pair exists. -/
theorem can_attend_true_no_dup (e : Event) (u : User) (recs : List Attendance) (now : Int)
    (h : (e.can_user_attend u recs now).1 = true) : hasAttendance e u recs = false := by
  unfold Event.can_user_attend at h
  split_ifs at h with h1 h2 h3 h4 h5
  all_goals simp_all

/-- C1 amended: a submission inserts at most one record and preserves the
(event, user) uniqueness constraint; a submission for a pair that already
has a record never succeeds and leaves the store unchanged, and it reports
the already-marked message whenever the campus and capacity gates pass,
that is, whenever the actor is campus-eligible and a truthy participant
limit has not been reached (in particular when the event has no limit). -/
theorem duplicate_submission_safe (e : Event) (u : User) (recs : List Attendance) (now : Int) :
    (uniquePairs recs = true → uniquePairs (submitAttendance e u recs now).1 = true) ∧
    (hasAttendance e u recs = true →
      (submitAttendance e u recs now).1 = recs ∧
      (submitAttendance e u recs now).2.1 = false) ∧
    (hasAttendance e u recs = true →
      (truthyNat e.max_participants = true →
        e.attendance_count recs < e.max_participants.getD 0) →
      (if e.is_multi_campus then u.campus_id ∈ e.allowed_campuses
       else u.campus_id = e.campus_id) →
      (submitAttendance e u recs now).2.2 = "Already marked attendance for this event") := by
  refine ⟨?_, ?_, ?_⟩
  · intro hu
    unfold submitAttendance
    cases hres : (e.can_user_attend u recs now).1
    · simpa [hres] using hu
    · have hnd := can_attend_true_no_dup e u recs now hres
      unfold hasAttendance at hnd
      simp [hres, uniquePairs, Attendance.save, truthyInt, hnd, hu]
  · intro hdup
    cases hres : (e.can_user_attend u recs now).1
    · unfold submitAttendance
      simp [hres]
    · have := can_attend_true_no_dup e u recs now hres
      rw [hdup] at this
      exact absurd this (by simp)
  · intro hdup hcap hel
    have hcapb : (truthyNat e.max_participants &&
        decide (e.max_participants.getD 0 ≤ e.attendance_count recs)) = false := by
      cases ht : truthyNat e.max_participants
      · rfl
      · simpa using Nat.not_le.mpr (hcap ht)
    have hres : e.can_user_attend u recs now =
        (false, "Already marked attendance for this event") := by
      unfold Event.can_user_attend
      cases hmc : e.is_multi_campus <;> rw [hmc] at hel <;>
        simp_all [hasAttendance]
    unfold submitAttendance
    rw [hres]
    simp

/-- Counterexample for C1 as stated: on the capacity-1 event whose single
slot is already taken by this same actor, the repeated submission is refused
with the capacity message, not the already-marked message. -/
theorem duplicate_capacity_counterexample :
    hasAttendance eC1 uC1 [rC1] = true ∧
    submitAttendance eC1 uC1 [rC1] 600 = ([rC1], false, "Event is at capacity") ∧
    "Event is at capacity" ≠ "Already marked attendance for this event" := by
  decide

/-- Witness for the amended C1: on the unlimited event 20 and on the
capacity-5 event 21 holding one record, the repeated submission of the same
pair leaves the store unchanged and reports the already-marked message. -/
theorem duplicate_submission_safe_witness :
    uniquePairs (submitAttendance eW1 uC1 [rW1] 600).1 = true ∧
    (submitAttendance eW1 uC1 [rW1] 600).1 = [rW1] ∧
    (submitAttendance eW1 uC1 [rW1] 600).2.2 = "Already marked attendance for this event" ∧
    (submitAttendance eW1b uC1 [rW1b] 600).2.2 = "Already marked attendance for this event" :=
  ⟨(duplicate_submission_safe eW1 uC1 [rW1] 600).1 (by decide),
   ((duplicate_submission_safe eW1 uC1 [rW1] 600).2.1 (by decide)).1,
   (duplicate_submission_safe eW1 uC1 [rW1] 600).2.2 (by decide) (by decide) (by decide),
   (duplicate_submission_safe eW1b uC1 [rW1b] 600).2.2 (by decide) (by decide) (by decide)⟩

/-- C7 amended: for an event whose max_participants is set to a nonzero
value, a submission that passed the campus gate is refused with the capacity
message exactly when the count of present records has reached the limit,
that is, it passes the capacity gate exactly when the count is strictly
below the limit. -/
theorem capacity_gate (e : Event) (u : User) (recs : List Attendance) (now : Int) (m : Nat)
    (hm : e.max_participants = some m) (hpos : 0 < m)
    (hel : if e.is_multi_campus then u.campus_id ∈ e.allowed_campuses
           else u.campus_id = e.campus_id) :
    (e.can_user_attend u recs now = (false, "Event is at capacity") ↔
      m ≤ e.attendance_count recs) := by
  unfold Event.can_user_attend
  cases hmc : e.is_multi_campus <;> rw [hmc] at hel <;>
    split_ifs <;> simp_all [truthyNat] <;> omega

/-- Counterexample for C7 as stated: an event whose max_participants is set
to 0 admits a submission even though the present count (zero) is not
strictly below the capacity, because the falsy limit disables the gate. -/
theorem capacity_zero_counterexample :
    eC7.max_participants = some 0 ∧
    Event.can_user_attend eC7 uC7 [] 600 = (true, "Can attend") ∧
    ¬ eC7.attendance_count [] < 0 := by
  decide

/-- Witness for the amended C7: the capacity-1 event already holding one
present record of another actor refuses the next submission with the
capacity message. -/
theorem capacity_gate_witness :
    Event.can_user_attend eW7 uC7 [rW7] 600 = (false, "Event is at capacity") :=
  (capacity_gate eW7 uC7 [rW7] 600 1 rfl (by decide) (by decide)).mpr (by decide)

/-- Counterexample for C2 as stated: on a campus whose configuration sets 60
window minutes, a fresh event starting at minute 600 and ending at minute
720 is saved with window [570, 630], not the [540, 780] demanded by the
spec-side formula; the delta is a fixed 30 minutes and the upper bound is
taken from the event start, not its end. -/
theorem window_formula_counterexample :
    (Event.save eC2).attendance_window_start = some 570 ∧
    (Event.save eC2).attendance_window_end = some 630 ∧
    specAttendanceWindow cfgC2 eC2 = some (540, 780) ∧
    (570 : Int) ≠ 540 ∧ (630 : Int) ≠ 780 := by
  decide

/-- C2 amended: for every event saved with no preset window start and a date
and start time, the computed window is the fixed interval of 30 minutes
before and after the event start datetime, independent of any campus
configuration and of the event end time. -/
theorem window_fixed_delta (e : Event) (d s : Int)
    (h0 : e.attendance_window_start = none) (hd : e.date = some d) (hs : e.start_time = some s) :
    (Event.save e).attendance_window_start = some (d * 1440 + s - 30) ∧
    (Event.save e).attendance_window_end = some (d * 1440 + s + 30) := by
  unfold Event.save Event.generate_qr_code
  have hg : e.attendance_window_start = none ∧ e.date.isSome ∧ e.start_time.isSome :=
    ⟨h0, by simp [hd], by simp [hs]⟩
  rw [if_pos hg]
  dsimp only
  split <;> simp [hd, hs]

/-- Witness for the amended C2 at the concrete fresh event of campus 1. -/
theorem window_fixed_delta_witness :
    (Event.save eC2).attendance_window_start = some 570 ∧
    (Event.save eC2).attendance_window_end = some 630 := by
  have h := window_fixed_delta eC2 0 600 rfl rfl rfl
  norm_num at h
  exact h

/-- C8: saving an event without a stored QR code generates the deterministic
payload embedding the event id and caches the rendered code; after any save
a code is stored, saving again changes nothing (idempotent issuance), and
regenerating for events with the same id yields the same payload. -/
theorem token_idempotent (e : Event) :
    (e.qr_code = none → (Event.save e).qr_code_data = qr_data_for e.id) ∧
    (Event.save e).qr_code ≠ none ∧
    Event.save (Event.save e) = Event.save e ∧
    (∀ e2 : Event, e2.id = e.id →
      (Event.generate_qr_code e2).qr_code_data = (Event.generate_qr_code e).qr_code_data) := by
  by_cases hg : e.attendance_window_start = none ∧ e.date.isSome ∧ e.start_time.isSome <;>
    cases hq : e.qr_code <;>
      simp [Event.save, Event.generate_qr_code, qr_data_for, hg, hq] <;>
        exact fun e2 h => by rw [h]

/-- Witness for C8 at the fresh event 12: the payload embeds the id and a
second save is the identity. -/
theorem token_idempotent_witness :
    (Event.save eW8).qr_code_data = qr_data_for 12 ∧
    Event.save (Event.save eW8) = Event.save eW8 :=
  ⟨(token_idempotent eW8).1 rfl, (token_idempotent eW8).2.2.1⟩

/-- C3 amended: the override header determines the effective campus exactly
when the role is campus_admin or super_admin, the header parses, a campus row
with the parsed id exists, and the id is in the resolved accessible set; an
absent or unparseable header, or any failed condition, silently keeps the
home campus. -/
theorem override_rule (db : List Campus) (u : User) :
    process_request db u .absent = u.campus_id ∧
    process_request db u .unparseable = u.campus_id ∧
    ∀ n : Int,
      process_request db u (.value n) =
        if (u.role = .campus_admin ∨ u.role = .super_admin) ∧
            (∃ c ∈ db, c.id = n) ∧ n ∈ u.get_accessible_campus_ids db
        then n else u.campus_id := by
  refine ⟨rfl, rfl, fun n => ?_⟩
  unfold process_request
  dsimp only
  by_cases hrole : u.role = .campus_admin ∨ u.role = .super_admin
  · rw [if_pos hrole]
    cases hfind : db.find? fun c =>
        c.id == n && (u.get_accessible_campus_ids db).contains c.id with
    | none =>
        rw [if_neg]
        rintro ⟨-, ⟨c, hc, hcn⟩, hmem⟩
        have hnc := List.find?_eq_none.mp hfind c hc
        apply hnc
        simp [hcn, hmem]
    | some c =>
        have hp := List.find?_some hfind
        have hcmem := List.mem_of_find?_eq_some hfind
        simp only [Bool.and_eq_true, beq_iff_eq] at hp
        have hid : c.id = n := hp.1
        have hacc : n ∈ u.get_accessible_campus_ids db := by
          have := hp.2
          rw [hid] at this
          simpa using this
        rw [if_pos ⟨hrole, ⟨c, hcmem, hid⟩, hacc⟩]
        exact hid
  · rw [if_neg hrole, if_neg fun h => hrole h.1]

/-- Counterexample for C3 as stated: a campus admin whose explicit accessible
list contains the id 4 of a campus that does not exist requests override 4;
the claimed condition (privileged role and membership in the resolved set)
holds, yet the code keeps home campus 1 because the database lookup fails. -/
theorem override_existence_counterexample :
    (uC3.role = .campus_admin ∨ uC3.role = .super_admin) ∧
    (4 : Int) ∈ uC3.get_accessible_campus_ids dbC3 ∧
    process_request dbC3 uC3 (.value 4) = 1 ∧ (1 : Int) ≠ 4 := by
  decide

/-- C10 amended: for every user that is not super_admin the query is always
filtered to a single campus: the requested campus when it is nonzero and in
the accessible set, the home campus otherwise (absent, zero or inaccessible
request); consequently every returned row belongs to the home campus or to
the requested, accessible campus. -/
theorem accessible_scoped (db : List Campus) (rows : List Row) (u : User)
    (campus_id : Option Int) (hrole : u.role ≠ .super_admin) :
    accessible_to_user db rows u campus_id =
      rows.filter (fun r => r.campus_id == scopeTarget db u campus_id) ∧
    ∀ r ∈ accessible_to_user db rows u campus_id,
      r.campus_id = u.campus_id ∨
        (campus_id = some r.campus_id ∧ r.campus_id ∈ u.get_accessible_campus_ids db) := by
  have heq : accessible_to_user db rows u campus_id =
      rows.filter (fun r => r.campus_id == scopeTarget db u campus_id) := by
    unfold accessible_to_user scopeTarget
    rw [if_neg hrole]
    dsimp only
    split <;> rfl
  refine ⟨heq, fun r hr => ?_⟩
  rw [heq] at hr
  have hcamp : r.campus_id = scopeTarget db u campus_id := by
    have hm := List.mem_filter.mp hr
    simpa using hm.2
  rw [hcamp]
  unfold scopeTarget
  split
  · rename_i hc
    right
    obtain ⟨ht, hmem⟩ := hc
    cases campus_id with
    | none => simp [truthyInt] at ht
    | some n => exact ⟨rfl, by simpa using hmem⟩
  · left; rfl

/-- Counterexample for C10 as stated: the requested campus id 0 is in the
accessible set of this campus admin, yet the result is filtered to home
campus 1 and contains a row that is not of campus 0, because the falsy
request disables the override branch. -/
theorem zero_campus_counterexample :
    uC10.role ≠ .super_admin ∧
    (0 : Int) ∈ uC10.get_accessible_campus_ids [] ∧
    accessible_to_user [] [⟨10, 1⟩] uC10 (some 0) = [⟨10, 1⟩] ∧
    (⟨10, 1⟩ : Row).campus_id ≠ 0 := by
  decide

/-- Witness for the amended C10: the campus admin of campus 1 with accessible
campuses 1 and 2 requesting campus 2 receives exactly the campus 2 rows. -/
theorem accessible_scoped_witness :
    accessible_to_user [] [⟨10, 1⟩, ⟨11, 2⟩] uW10 (some 2) = [⟨11, 2⟩] :=
  ((accessible_scoped [] [⟨10, 1⟩, ⟨11, 2⟩] uW10 (some 2) (by decide)).1).trans (by decide)

end EAS
